import Mathlib

/-!
Verification of the gpumanager GPU scheduler against its specification.

This file shallowly embeds the state machine of `src/gpumanager/gpu/state.py`,
the registry operations of `src/gpumanager/gpu/manager.py`, the request
pipeline of `src/gpumanager/api/ollama_proxy.py`, the route table of
`src/gpumanager/api/handlers.py` and the auth middleware of
`src/gpumanager/api/middleware.py`.

Conventions of the embedding:
* `datetime.now()` is passed explicitly as `now : Nat` (seconds); durations are
  seconds, so `timedelta(minutes=m)` is `m * 60`.
* Python's in-place mutation becomes explicit state passing: a mutator on a
  worker returns the updated `GPUInfo`; registry-level operations return the
  updated registry.
* Fallible Python code (uncaught `KeyError` / `AttributeError`) is embedded
  with `Except PyErr`.
* `GPUInfo` is a pydantic model; it declares exactly the fields written in
  `state.py`.  In particular it declares NO `active_requests` and NO
  `max_slots` field, although `gpu/manager.py` and the test-suite read them;
  reading an undeclared attribute of a pydantic model raises
  `AttributeError`, which the embedding makes explicit.
-/

/-- Status enum `GPUModelStatus` from `gpu/state.py`. -/
inductive GPUModelStatus where
  | paused
  | starting
  | idle
  | loading_model
  | model_ready
  | busy
  | pausing
  | error
deriving DecidableEq, Repr

/-- `ModelInfo` from `gpu/state.py` (timestamps as `Nat` seconds). -/
structure ModelInfo where
  name : String
  size : Option String := none
  loaded_at : Nat := 0
  last_used : Nat := 0
  context_length : Option Nat := none
deriving DecidableEq, Repr

/-- `ModelInfo.update_last_used` from `gpu/state.py`. -/
def ModelInfo.update_last_used (now : Nat) (m : ModelInfo) : ModelInfo :=
  { m with last_used := now }

/-- `GPUReservation` from `gpu/state.py`. -/
structure GPUReservation where
  user_id : String
  reserved_at : Nat := 0
  expires_at : Nat
  model_name : Option String := none
deriving DecidableEq, Repr

/-- `GPUReservation.is_expired`: `datetime.now() > self.expires_at`. -/
def GPUReservation.is_expired (now : Nat) (r : GPUReservation) : Bool :=
  now > r.expires_at

/-- `GPUInfo` from `gpu/state.py`.  The field list is exactly the pydantic
model's field list: there is no `active_requests` and no `max_slots` field. -/
structure GPUInfo where
  gpu_id : String
  name : String
  ip_address : String
  flavor : String
  status : GPUModelStatus
  loaded_model : Option ModelInfo := none
  reservation : Option GPUReservation := none
  last_state_change : Nat := 0
  last_request : Option Nat := none
  idle_since : Option Nat := none
  total_requests : Nat := 0
  requests_today : Nat := 0
deriving DecidableEq, Repr

/-- `GPUInfo.update_status`: a no-op when the status is unchanged; otherwise
sets the status and `last_state_change`, and updates `idle_since`
(`MODEL_READY` sets it to `now`, `BUSY` clears it, other statuses leave it). -/
def GPUInfo.update_status (now : Nat) (g : GPUInfo) (new_status : GPUModelStatus) : GPUInfo :=
  if new_status = g.status then g
  else
    let g1 := { g with status := new_status, last_state_change := now }
    if new_status = GPUModelStatus.model_ready then { g1 with idle_since := some now }
    else if new_status = GPUModelStatus.busy then { g1 with idle_since := none }
    else g1

/-- `GPUInfo.update_model`: stores the model info, stamping `last_used` when a
model is given. -/
def GPUInfo.update_model (now : Nat) (g : GPUInfo) (model_info : Option ModelInfo) : GPUInfo :=
  match model_info with
  | some m => { g with loaded_model := some (m.update_last_used now) }
  | none => { g with loaded_model := none }

/-- `GPUInfo.start_request`: `update_status(BUSY)`, stamp `last_request`, bump
`total_requests` and `requests_today`, and refresh the loaded model's
`last_used`.  Note: the source performs no precondition check and does not
touch the reservation. -/
def GPUInfo.start_request (now : Nat) (g : GPUInfo) (_user_id : String) : GPUInfo :=
  let g1 := g.update_status now GPUModelStatus.busy
  let g2 := { g1 with
    last_request := some now,
    total_requests := g1.total_requests + 1,
    requests_today := g1.requests_today + 1 }
  match g2.loaded_model with
  | some m => { g2 with loaded_model := some (m.update_last_used now) }
  | none => g2

/-- `GPUInfo.clear_reservation`. -/
def GPUInfo.clear_reservation (g : GPUInfo) : GPUInfo :=
  { g with reservation := none }

/-- `GPUInfo.finish_request`: `update_status(MODEL_READY)` when a model is
loaded, else `update_status(IDLE)`; then `clear_reservation()`. -/
def GPUInfo.finish_request (now : Nat) (g : GPUInfo) : GPUInfo :=
  let g1 :=
    match g.loaded_model with
    | some _ => g.update_status now GPUModelStatus.model_ready
    | none => g.update_status now GPUModelStatus.idle
  g1.clear_reservation

/-- `GPUInfo.set_reservation`: `expires_at = now + duration_minutes` (the
source truncates microseconds, the identity on whole seconds). -/
def GPUInfo.set_reservation (now : Nat) (g : GPUInfo) (user_id : String)
    (duration_minutes : Nat) (model_name : Option String) : GPUInfo :=
  { g with reservation := some {
      user_id := user_id,
      reserved_at := now,
      expires_at := now + duration_minutes * 60,
      model_name := model_name } }

/-- `GPUInfo.is_available` including its side effect: first lazily clear an
expired reservation, then report `status ∈ [MODEL_READY, IDLE] ∧ reservation
is None`.  Returns the (possibly mutated) worker together with the Bool. -/
def GPUInfo.is_available_eff (now : Nat) (g : GPUInfo) : GPUInfo × Bool :=
  let g1 :=
    match g.reservation with
    | some r => if r.is_expired now then g.clear_reservation else g
    | none => g
  (g1, (g1.status == GPUModelStatus.model_ready || g1.status == GPUModelStatus.idle)
        && g1.reservation.isNone)

/-- The Bool returned by `GPUInfo.is_available`. -/
def GPUInfo.is_available (now : Nat) (g : GPUInfo) : Bool :=
  (g.is_available_eff now).2

/-- `GPUInfo.has_model_loaded`: the named model is resident and the status is
`MODEL_READY`. -/
def GPUInfo.has_model_loaded (g : GPUInfo) (model_name : String) : Bool :=
  match g.loaded_model with
  | some m => m.name == model_name && g.status == GPUModelStatus.model_ready
  | none => false

/-- Exceptions that escape the embedded `gpu/manager.py` code. -/
inductive PyErr where
  | attributeError
  | keyError
deriving DecidableEq, Repr

/-- The attribute read `gpu.active_requests` performed by `gpu/manager.py`
(lines 140, 151, 165, 189, 258).  `GPUInfo` in `gpu/state.py` declares no
`active_requests` field, and a pydantic model raises `AttributeError` when an
undeclared attribute is read, so this access always fails. -/
def GPUInfo.active_requests_read (_ : GPUInfo) : Except PyErr Nat :=
  Except.error PyErr.attributeError

/-- The GPU registry `self.gpus : Dict[str, GPUInfo]` (insertion ordered). -/
abbrev Registry := List (String × GPUInfo)

/-- `self.gpus[gpu_id]` / `gpu_id in self.gpus` lookup. -/
def lookupGpu (reg : Registry) (gpu_id : String) : Option GPUInfo :=
  match reg with
  | [] => none
  | (k, g) :: rest => if k == gpu_id then some g else lookupGpu rest gpu_id

/-- Write back a mutated worker record under its key. -/
def setGpu (reg : Registry) (gpu_id : String) (g : GPUInfo) : Registry :=
  reg.map (fun p => if p.1 == gpu_id then (p.1, g) else p)

/-- The candidate loop of `GPUManager._find_gpu_with_model`: a worker with the
model loaded and available is collected; a worker with the model loaded but
not available hits the debug log whose f-string reads `gpu.active_requests`,
raising `AttributeError`. -/
def collect_model_candidates (now : Nat) (model_name : String) :
    List GPUInfo → Except PyErr (List GPUInfo)
  | [] => Except.ok []
  | g :: rest =>
    if g.has_model_loaded model_name && g.is_available now then
      (collect_model_candidates now model_name rest).map (fun l => g :: l)
    else if g.has_model_loaded model_name then
      match g.active_requests_read with
      | Except.error e => Except.error e
      | Except.ok _ => collect_model_candidates now model_name rest
    else
      collect_model_candidates now model_name rest

/-- `GPUManager._find_gpu_with_model`: collects candidates, returns `None`
when there are none, and otherwise evaluates
`sorted(candidates, key=lambda g: g.active_requests)`, whose key function
reads the missing attribute and raises `AttributeError`. -/
def find_gpu_with_model (now : Nat) (gpus : List GPUInfo) (model_name : String) :
    Except PyErr (Option GPUInfo) :=
  match collect_model_candidates now model_name gpus with
  | Except.error e => Except.error e
  | Except.ok [] => Except.ok none
  | Except.ok (c :: _) =>
    match c.active_requests_read with
    | Except.error e => Except.error e
    | Except.ok _ => Except.ok (some c)

/-- One pass of `GPUManager._find_available_gpu`: workers in the given status
are collected when available; a worker in the status but not available hits
the skip log whose f-string reads `gpu.active_requests`. -/
def collect_status_candidates (now : Nat) (st : GPUModelStatus) :
    List GPUInfo → Except PyErr (List GPUInfo)
  | [] => Except.ok []
  | g :: rest =>
    if g.status == st then
      if g.is_available now then
        (collect_status_candidates now st rest).map (fun l => g :: l)
      else
        match g.active_requests_read with
        | Except.error e => Except.error e
        | Except.ok _ => collect_status_candidates now st rest
    else
      collect_status_candidates now st rest

/-- `GPUManager._find_available_gpu`: pass 1 over `IDLE` workers, pass 2 over
`MODEL_READY` workers, returning the first candidate of the first nonempty
pass. -/
def find_available_gpu (now : Nat) (gpus : List GPUInfo) : Except PyErr (Option GPUInfo) :=
  match collect_status_candidates now GPUModelStatus.idle gpus with
  | Except.error e => Except.error e
  | Except.ok (g :: _) => Except.ok (some g)
  | Except.ok [] =>
    match collect_status_candidates now GPUModelStatus.model_ready gpus with
    | Except.error e => Except.error e
    | Except.ok (g :: _) => Except.ok (some g)
    | Except.ok [] => Except.ok none

/-- `GPUManager._find_paused_gpu`: first worker with status `PAUSED`. -/
def find_paused_gpu (gpus : List GPUInfo) : Option GPUInfo :=
  gpus.find? (fun g => g.status == GPUModelStatus.paused)

/-- `GPUSelectionResult` from `gpu/models.py` (estimated wait is an `Int`
because the no-capacity decision uses `-1`). -/
structure GPUSelectionResult where
  gpu_info : Option GPUInfo
  estimated_wait_seconds : Int := 0
  requires_model_load : Bool := false
  requires_gpu_startup : Bool := false
  message : String
deriving DecidableEq, Repr

/-- Steps 2-4 of `GPUManager.select_gpu`: available (Idle preferred over
ModelReady) worker, else paused worker, else the no-capacity decision. -/
def select_gpu_fallback (now : Nat) (startup_timeout_seconds : Nat)
    (gpus : List GPUInfo) (model_name : String) : Except PyErr GPUSelectionResult :=
  match find_available_gpu now gpus with
  | Except.error e => Except.error e
  | Except.ok (some g) =>
    Except.ok {
      gpu_info := some g,
      estimated_wait_seconds := 30,
      requires_model_load := true,
      requires_gpu_startup := false,
      message := "GPU available, will load " ++ model_name }
  | Except.ok none =>
    match find_paused_gpu gpus with
    | some g =>
      Except.ok {
        gpu_info := some g,
        estimated_wait_seconds := Int.ofNat startup_timeout_seconds + 30,
        requires_model_load := true,
        requires_gpu_startup := true,
        message := "Will start GPU and load " ++ model_name }
    | none =>
      Except.ok {
        gpu_info := none,
        estimated_wait_seconds := -1,
        requires_model_load := false,
        requires_gpu_startup := false,
        message := "All GPUs are busy, please try again later" }

/-- `GPUManager.select_gpu`: step 1 is the model-affinity check via
`_find_gpu_with_model`, the remaining steps are `select_gpu_fallback`. -/
def select_gpu (now : Nat) (startup_timeout_seconds : Nat)
    (gpus : List GPUInfo) (model_name : String) : Except PyErr GPUSelectionResult :=
  match find_gpu_with_model now gpus model_name with
  | Except.error e => Except.error e
  | Except.ok (some g) =>
    if g.is_available now then
      Except.ok {
        gpu_info := some g,
        estimated_wait_seconds := 0,
        requires_model_load := false,
        requires_gpu_startup := false,
        message := "GPU ready with " ++ model_name ++ " loaded" }
    else select_gpu_fallback now startup_timeout_seconds gpus model_name
  | Except.ok none => select_gpu_fallback now startup_timeout_seconds gpus model_name

/-- Outcomes of the cloud collaborator calls made by `start_gpu`/`pause_gpu`:
`resume_ok`/`pause_ok` are false when the call raises `CloudAPIError`,
`wait_ok` is the Bool returned by `wait_for_workspace_status`. -/
structure CloudEnv where
  resume_ok : Bool := true
  wait_ok : Bool := true
  pause_ok : Bool := true
deriving DecidableEq, Repr

/-- `GPUManager.start_gpu`: unknown id or non-paused worker returns `False`;
otherwise Starting, cloud resume + wait, then Idle/True on success and
Error/False on timeout or `CloudAPIError`. -/
def start_gpu (now : Nat) (cloud : CloudEnv) (reg : Registry) (gpu_id : String) :
    Registry × Bool :=
  match lookupGpu reg gpu_id with
  | none => (reg, false)
  | some gpu =>
    if gpu.status ≠ GPUModelStatus.paused then (reg, false)
    else
      let gpu1 := gpu.update_status now GPUModelStatus.starting
      if !cloud.resume_ok then
        (setGpu reg gpu_id (gpu1.update_status now GPUModelStatus.error), false)
      else if cloud.wait_ok then
        (setGpu reg gpu_id (gpu1.update_status now GPUModelStatus.idle), true)
      else
        (setGpu reg gpu_id (gpu1.update_status now GPUModelStatus.error), false)

/-- `GPUManager.pause_gpu`: unknown id returns `False`; for a known id the
very next statement is `if gpu.active_requests > 0:` (manager.py line 258),
which reads the attribute `GPUInfo` does not declare.  The rest of the body
(status check, Pausing, clearing the model, cloud pause, Paused) is embedded
after that read. -/
def pause_gpu (now : Nat) (cloud : CloudEnv) (reg : Registry) (gpu_id : String) :
    Except PyErr (Registry × Bool) :=
  match lookupGpu reg gpu_id with
  | none => Except.ok (reg, false)
  | some gpu =>
    match gpu.active_requests_read with
    | Except.error e => Except.error e
    | Except.ok n =>
      if n > 0 then Except.ok (reg, false)
      else if !(gpu.status == GPUModelStatus.idle
                || gpu.status == GPUModelStatus.model_ready) then
        Except.ok (reg, false)
      else
        let gpu1 := (gpu.update_status now GPUModelStatus.pausing).update_model now none
        if cloud.pause_ok then
          Except.ok (setGpu reg gpu_id (gpu1.update_status now GPUModelStatus.paused), true)
        else
          Except.ok (setGpu reg gpu_id (gpu1.update_status now GPUModelStatus.error), false)

/-- The body of `GPUManager.reserve_gpu` once the worker record is in hand:
an existing reservation (expired or not) fails; a worker whose status is in
`[IDLE, MODEL_READY, BUSY]` must additionally pass `is_available()` (with its
lazy expiry clearing); any other status — Paused, Starting, Pausing,
LoadingModel, Error — goes straight to `set_reservation`. -/
def reserve_gpu_core (now : Nat) (gpu : GPUInfo) (user_id : String)
    (reservation_minutes : Nat) (model_name : Option String) : GPUInfo × Bool :=
  if gpu.reservation.isSome then (gpu, false)
  else if gpu.status == GPUModelStatus.idle
       || gpu.status == GPUModelStatus.model_ready
       || gpu.status == GPUModelStatus.busy then
    let p := gpu.is_available_eff now
    if !p.2 then (p.1, false)
    else (p.1.set_reservation now user_id reservation_minutes model_name, true)
  else (gpu.set_reservation now user_id reservation_minutes model_name, true)

/-- `GPUManager.reserve_gpu`: the lookup `self.gpus[gpu_id]` is unguarded, so
an unknown id raises `KeyError`; a known id runs `reserve_gpu_core`. -/
def reserve_gpu (now : Nat) (reservation_minutes : Nat) (reg : Registry)
    (gpu_id : String) (user_id : String) (model_name : Option String) :
    Except PyErr (Registry × Bool) :=
  match lookupGpu reg gpu_id with
  | none => Except.error PyErr.keyError
  | some gpu =>
    let p := reserve_gpu_core now gpu user_id reservation_minutes model_name
    Except.ok (setGpu reg gpu_id p.1, p.2)

/-- The observable outcomes of one iteration of the retry loop in
`OllamaProxy._select_and_prepare_gpu`, as a deterministic environment: the
selection result handed back by `select_gpu`, and the outcomes of the calls
made for it (`start_gpu`, the Starting poll, `reserve_gpu`,
`_ensure_model_loaded`). -/
structure ProxyAttempt where
  sel : GPUSelectionResult
  startup_ok : Bool := true
  became_ready : Bool := true
  reserve_ok : Bool := true
  load_ok : Bool := true
deriving DecidableEq, Repr

/-- What one iteration of the retry loop does: return from the function
(either an `HTTPException` status code or a selection result), or fall to the
next iteration after the 0.5 s backoff sleep. -/
inductive ProxyStep where
  | done : Except Nat GPUSelectionResult → ProxyStep
  | retry
deriving Repr

/-- One iteration of `OllamaProxy._select_and_prepare_gpu`: no worker returns
the result as is; a failed `start_gpu` raises 503; a Starting worker that
never becomes ready raises 503; a failed reservation retries; a failed model
load raises 503; otherwise the result is returned. -/
def prepare_attempt (a : ProxyAttempt) : ProxyStep :=
  match a.sel.gpu_info with
  | none => ProxyStep.done (Except.ok a.sel)
  | some gpu =>
    if a.sel.requires_gpu_startup && !a.startup_ok then
      ProxyStep.done (Except.error 503)
    else if gpu.status == GPUModelStatus.starting && !a.became_ready then
      ProxyStep.done (Except.error 503)
    else if a.reserve_ok then
      if a.sel.requires_model_load && !a.load_ok then
        ProxyStep.done (Except.error 503)
      else ProxyStep.done (Except.ok a.sel)
    else ProxyStep.retry

/-- Trace of `OllamaProxy._select_and_prepare_gpu`: the value it produces,
how many times it called `select_gpu`, and how many `asyncio.sleep(0.5)`
backoff sleeps (500 ms each) it performed. -/
structure PrepRun where
  result : Except Nat GPUSelectionResult
  select_calls : Nat
  backoff_sleeps : Nat

/-- `OllamaProxy._select_and_prepare_gpu` with `max_retries = 3`
(`for attempt in range(max_retries)`), sleeping 0.5 s after every failed
reservation; when the loop ends without a reservation, the LAST selection
result is returned unchanged (`return gpu_result` after the loop). -/
def select_and_prepare_gpu (env : Nat → ProxyAttempt) : PrepRun :=
  match prepare_attempt (env 0) with
  | ProxyStep.done r => { result := r, select_calls := 1, backoff_sleeps := 0 }
  | ProxyStep.retry =>
    match prepare_attempt (env 1) with
    | ProxyStep.done r => { result := r, select_calls := 2, backoff_sleeps := 1 }
    | ProxyStep.retry =>
      match prepare_attempt (env 2) with
      | ProxyStep.done r => { result := r, select_calls := 3, backoff_sleeps := 2 }
      | ProxyStep.retry =>
        { result := Except.ok (env 2).sel, select_calls := 3, backoff_sleeps := 3 }

/-- How `OllamaProxy.generate` (and `chat`) answers a request. -/
inductive RequestOutcome where
  | http_error (status_code : Nat)
  | dispatched (gpu_id : String)
deriving DecidableEq, Repr

/-- The dispatch decision of `OllamaProxy.generate`: propagate an
`HTTPException` from `_select_and_prepare_gpu`; answer 503 only when the
returned result carries no worker; otherwise `start_request` the worker and
proxy the request to it. -/
def generate_route (env : Nat → ProxyAttempt) : RequestOutcome :=
  match (select_and_prepare_gpu env).result with
  | Except.error code => RequestOutcome.http_error code
  | Except.ok res =>
    match res.gpu_info with
    | none => RequestOutcome.http_error 503
    | some gpu => RequestOutcome.dispatched gpu.gpu_id

/-- HTTP methods used by the FastAPI route registrations. -/
inductive HttpMethod where
  | get
  | post
  | put
  | delete
deriving DecidableEq, Repr

/-- One route registration of `RequestHandler._create_app`: its methods, its
path pattern, and whether the registration (or the handler's signature)
carries a `Depends(get_current_user)` auth dependency. -/
structure Route where
  methods : List HttpMethod
  path : String
  requires_auth : Bool
deriving DecidableEq, Repr

/-- The route table built by `RequestHandler._create_app`, in registration
order.  The catch-all passthrough `app.api_route("/api/\x7bpath:path\x7d",
methods=["GET", "POST", "PUT", "DELETE"])(self.ollama_passthrough)` is
registered without any auth dependency and `ollama_passthrough`'s signature
takes no authenticated user. -/
def app_routes : List Route := [
  { methods := [HttpMethod.get], path := "/health", requires_auth := false },
  { methods := [HttpMethod.get], path := "/gpu/discover", requires_auth := true },
  { methods := [HttpMethod.get], path := "/gpu/stats", requires_auth := true },
  { methods := [HttpMethod.get], path := "/gpu/\x7bgpu_id\x7d/status", requires_auth := true },
  { methods := [HttpMethod.post], path := "/gpu/\x7bgpu_id\x7d/resume", requires_auth := true },
  { methods := [HttpMethod.post], path := "/gpu/\x7bgpu_id\x7d/pause", requires_auth := true },
  { methods := [HttpMethod.post], path := "/api/generate", requires_auth := true },
  { methods := [HttpMethod.post], path := "/api/chat", requires_auth := true },
  { methods := [HttpMethod.post], path := "/v1/chat/completions", requires_auth := true },
  { methods := [HttpMethod.get, HttpMethod.post, HttpMethod.put, HttpMethod.delete],
    path := "/api/\x7bpath:path\x7d", requires_auth := false }]

/-- A 401 rejection raised by `AuthMiddleware.get_current_user`, with the
response header `WWW-Authenticate` it carries. -/
structure AuthFailure where
  status_code : Nat
  www_authenticate_header : String
deriving DecidableEq, Repr

/-- `AuthMiddleware.get_current_user` from `api/middleware.py`: missing
credentials or an api key that `validate_api_key` rejects raise 401 with
`WWW-Authenticate: Bearer`; otherwise the authenticated user is returned. -/
def get_current_user (validate_api_key : String → Option String)
    (credentials : Option String) : Except AuthFailure String :=
  match credentials with
  | none => Except.error { status_code := 401, www_authenticate_header := "Bearer" }
  | some api_key =>
    match validate_api_key api_key with
    | none => Except.error { status_code := 401, www_authenticate_header := "Bearer" }
    | some user => Except.ok user

/-- A value stored in an Ollama `options` dict by the OpenAI conversion:
`temperature`/`top_p` are floats, `max_tokens` is an int. -/
inductive OptionValue where
  | float_val (x : Float)
  | int_val (x : Int)

/-- `OpenAIMessage` from `api/ollama_models.py`. -/
structure OpenAIMessage where
  role : String
  content : String

/-- `OpenAIChatRequest` from `api/ollama_models.py`. -/
structure OpenAIChatRequest where
  model : String
  messages : List OpenAIMessage
  temperature : Option Float := none
  top_p : Option Float := none
  n : Option Int := some 1
  stream : Bool := false
  stop : Option (List String) := none
  max_tokens : Option Int := none
  presence_penalty : Option Float := none
  frequency_penalty : Option Float := none
  user : Option String := none

/-- `OllamaMessage` from `api/ollama_models.py`. -/
structure OllamaMessage where
  role : String
  content : String
  images : Option (List String) := none

/-- `OllamaChatRequest` from `api/ollama_models.py`; the `options` dict is an
insertion-ordered association list. -/
structure OllamaChatRequest where
  model : String
  messages : List OllamaMessage
  format : Option String := none
  options : Option (List (String × OptionValue)) := none
  stream : Bool := true
  keep_alive : Option (Sum String Int) := none

/-- `OllamaProxy._convert_openai_to_ollama_chat`: messages are mapped
element-wise keeping role and content; `temperature`, `top_p` and
`max_tokens` (as `num_ctx`) are inserted into `options` when present; an
empty options dict becomes `None`; `model` and `stream` carry over. -/
def convert_openai_to_ollama_chat (r : OpenAIChatRequest) : OllamaChatRequest :=
  let ollama_messages : List OllamaMessage :=
    r.messages.map (fun m => { role := m.role, content := m.content, images := none })
  let options : List (String × OptionValue) :=
    (match r.temperature with
     | some t => [("temperature", OptionValue.float_val t)]
     | none => [])
    ++ (match r.top_p with
        | some p => [("top_p", OptionValue.float_val p)]
        | none => [])
    ++ (match r.max_tokens with
        | some m => [("num_ctx", OptionValue.int_val m)]
        | none => [])
  { model := r.model,
    messages := ollama_messages,
    format := none,
    options := if options.isEmpty then none else some options,
    stream := r.stream,
    keep_alive := none }

/-- Association-list read of an options dict. -/
def assoc_get : List (String × OptionValue) → String → Option OptionValue
  | [], _ => none
  | (k, v) :: rest, key => if k == key then some v else assoc_get rest key

/-- `options.get(key)` where `options` may be `None`. -/
def options_get (options : Option (List (String × OptionValue))) (key : String) :
    Option OptionValue :=
  match options with
  | none => none
  | some l => assoc_get l key

/-- The idle worker gpu1 of `tests/test_gpu_manager.py` (the `max_slots=2`
constructor argument there names no declared field and pydantic ignores it). -/
def gpu1_idle : GPUInfo := {
  gpu_id := "gpu1",
  name := "GPU 1",
  ip_address := "10.0.0.1",
  flavor := "gpu-small",
  status := GPUModelStatus.idle }

/-- gpu1 warmed up: `MODEL_READY` with llama3 resident (the fixture of
`test_select_gpu_with_model`). -/
def gpu1_ready : GPUInfo := { gpu1_idle with
  status := GPUModelStatus.model_ready,
  loaded_model := some { name := "llama3" },
  idle_since := some 0 }

/-- gpu1_ready with different usage counters and timestamps. -/
def gpu1_ready_used : GPUInfo := { gpu1_ready with
  total_requests := 99,
  requests_today := 7,
  last_request := some 123,
  last_state_change := 50 }

/-- A paused worker holding a live reservation for alice. -/
def gpu2_paused_reserved : GPUInfo := {
  gpu_id := "gpu2",
  name := "GPU 2",
  ip_address := "10.0.0.2",
  flavor := "gpu-large",
  status := GPUModelStatus.paused,
  reservation := some {
    user_id := "alice",
    reserved_at := 0,
    expires_at := 600,
    model_name := some "llama3" } }

/-- An unreserved worker stuck in the `ERROR` state. -/
def gpu3_error : GPUInfo := {
  gpu_id := "gpu3",
  name := "GPU 3",
  ip_address := "10.0.0.3",
  flavor := "gpu-small",
  status := GPUModelStatus.error }

/-- A busy worker with no model loaded (a passthrough-style request in
flight). -/
def gpu4_busy : GPUInfo := {
  gpu_id := "gpu4",
  name := "GPU 4",
  ip_address := "10.0.0.4",
  flavor := "gpu-small",
  status := GPUModelStatus.busy }

/-- A registry holding the single worker gpu1. -/
def solo_registry : Registry := [("gpu1", gpu1_idle)]

/-- The selected worker of `tests/test_ollama_proxy.py`. -/
def proxy_gpu1 : GPUInfo := {
  gpu_id := "gpu1",
  name := "GPU 1",
  ip_address := "1.2.3.4",
  flavor := "test",
  status := GPUModelStatus.idle }

/-- One retry-loop iteration in which selection finds `proxy_gpu1` but the
reservation is lost (the `test_select_and_prepare_gpu_fail_all_retries`
scenario). -/
def race_attempt : ProxyAttempt := {
  sel := {
    gpu_info := some proxy_gpu1,
    estimated_wait_seconds := 0,
    requires_model_load := true,
    requires_gpu_startup := false,
    message := "Ready" },
  reserve_ok := false }

/-- The environment in which every reservation attempt is lost. -/
def race_env : Nat → ProxyAttempt := fun _ => race_attempt

/-- The catch-all Ollama passthrough registration of
`RequestHandler._create_app`. -/
def passthrough_route : Route := {
  methods := [HttpMethod.get, HttpMethod.post, HttpMethod.put, HttpMethod.delete],
  path := "/api/\x7bpath:path\x7d",
  requires_auth := false }

/-- Mapping OpenAI messages to Ollama messages preserves the (role, content)
pairs in order. -/
theorem map_role_content (l : List OpenAIMessage) :
    (l.map (fun m =>
        ({ role := m.role, content := m.content, images := none } : OllamaMessage))).map
          (fun m => (m.role, m.content))
      = l.map (fun m => (m.role, m.content)) := by
  induction l with
  | nil => rfl
  | cons a t ih => simp [ih]

/-- C1: the availability predicate of `gpu/state.py` is a function of the
worker's status and reservation alone — `GPUInfo` has no `active_requests` or
`max_slots` field, so no slot-occupancy conjunct exists — and for an
unreserved worker it is exactly `status ∈ [MODEL_READY, IDLE]`. -/
theorem is_available_ignores_request_load (now : Nat) (g h : GPUInfo)
    (hs : g.status = h.status) (hr : g.reservation = h.reservation) :
    g.is_available now = h.is_available now ∧
    (g.reservation = none →
      g.is_available now
        = (g.status == GPUModelStatus.model_ready || g.status == GPUModelStatus.idle)) := by
  have key : ∀ w : GPUInfo, w.is_available now =
      (match w.reservation with
       | some r => if r.is_expired now then
           (w.status == GPUModelStatus.model_ready || w.status == GPUModelStatus.idle)
         else false
       | none => (w.status == GPUModelStatus.model_ready || w.status == GPUModelStatus.idle)) := by
    intro w
    rcases hw : w.reservation with _ | r
    · simp [GPUInfo.is_available, GPUInfo.is_available_eff, hw]
    · rcases hexp : r.is_expired now <;>
        simp [GPUInfo.is_available, GPUInfo.is_available_eff, GPUInfo.clear_reservation,
          hw, hexp]
  constructor
  · rw [key g, key h, hs, hr]
  · intro hnone
    rw [key g, hnone]

/-- C1 witness: two `MODEL_READY` unreserved workers differing in usage
counters and timestamps are equally available, and that availability is the
pure status test. -/
theorem is_available_ignores_request_load_witness :
    gpu1_ready.is_available 0 = gpu1_ready_used.is_available 0 ∧
    gpu1_ready.is_available 0
      = (gpu1_ready.status == GPUModelStatus.model_ready
          || gpu1_ready.status == GPUModelStatus.idle) :=
  ⟨(is_available_ignores_request_load 0 gpu1_ready gpu1_ready_used rfl rfl).1,
   (is_available_ignores_request_load 0 gpu1_ready gpu1_ready_used rfl rfl).2 rfl⟩

/-- C2 counterexample: `start_request` on a reserved Paused worker returns
normally (no precondition failure) with the reservation fully intact, so it
neither clears the reservation nor fails. -/
theorem start_request_keeps_reservation :
    (gpu2_paused_reserved.start_request 5 "alice").reservation
      = some {
          user_id := "alice",
          reserved_at := 0,
          expires_at := 600,
          model_name := some "llama3" } ∧
    (gpu2_paused_reserved.start_request 5 "alice").status = GPUModelStatus.busy :=
  ⟨rfl, rfl⟩

/-- C2 amended: `start_request` always succeeds; it sets the status to Busy,
increments `total_requests` and `requests_today` by one, clears `idle_since`
when the worker was not already Busy, and leaves the reservation untouched
(`finish_request` is what clears it). -/
theorem start_request_spec (now : Nat) (g : GPUInfo) (user_id : String) :
    (g.start_request now user_id).status = GPUModelStatus.busy ∧
    (g.start_request now user_id).total_requests = g.total_requests + 1 ∧
    (g.start_request now user_id).requests_today = g.requests_today + 1 ∧
    (g.start_request now user_id).idle_since
      = (if g.status = GPUModelStatus.busy then g.idle_since else none) ∧
    (g.start_request now user_id).reservation = g.reservation := by
  by_cases hb : GPUModelStatus.busy = g.status
  · rcases hm : g.loaded_model with _ | m <;>
      simp [GPUInfo.start_request, GPUInfo.update_status, ModelInfo.update_last_used,
        hm, ← hb]
  · have hb' : ¬ g.status = GPUModelStatus.busy := fun hgb => hb hgb.symm
    rcases hm : g.loaded_model with _ | m <;>
      simp [GPUInfo.start_request, GPUInfo.update_status, ModelInfo.update_last_used,
        hm, hb, hb']

/-- C3 counterexample: in the environment where every reservation attempt is
lost, the request is NOT answered 503 — it is dispatched to the very worker
on which all three reservation attempts failed. -/
theorem reservation_race_dispatches_anyway :
    generate_route race_env = RequestOutcome.dispatched "gpu1" ∧
    generate_route race_env ≠ RequestOutcome.http_error 503 ∧
    (race_env 2).reserve_ok = false := by
  refine ⟨rfl, ?_, rfl⟩
  decide

/-- C3 amended: the retry loop calls `select_gpu` at most 3 times in any
environment; when every reservation attempt is lost it performs exactly 3
selections and 3 backoff sleeps of 500 ms, then returns the LAST selection
result unchanged, so a request whose final selection still names a worker is
dispatched to that worker without a reservation instead of being answered
503. -/
theorem retry_loop_returns_last_selection (env : Nat → ProxyAttempt)
    (hretry : ∀ i, prepare_attempt (env i) = ProxyStep.retry) :
    (∀ e : Nat → ProxyAttempt, (select_and_prepare_gpu e).select_calls ≤ 3) ∧
    (select_and_prepare_gpu env).result = Except.ok (env 2).sel ∧
    (select_and_prepare_gpu env).select_calls = 3 ∧
    (select_and_prepare_gpu env).backoff_sleeps = 3 ∧
    (∀ g : GPUInfo, (env 2).sel.gpu_info = some g →
      generate_route env = RequestOutcome.dispatched g.gpu_id) := by
  have h0 := hretry 0
  have h1 := hretry 1
  have h2 := hretry 2
  refine ⟨?_, ?_, ?_, ?_, ?_⟩
  · intro e
    rcases he0 : prepare_attempt (e 0) with r | _
    · simp [select_and_prepare_gpu, he0]
    · rcases he1 : prepare_attempt (e 1) with r | _
      · simp [select_and_prepare_gpu, he0, he1]
      · rcases he2 : prepare_attempt (e 2) with r | _ <;>
          simp [select_and_prepare_gpu, he0, he1, he2]
  · simp [select_and_prepare_gpu, h0, h1, h2]
  · simp [select_and_prepare_gpu, h0, h1, h2]
  · simp [select_and_prepare_gpu, h0, h1, h2]
  · intro g hg
    simp [generate_route, select_and_prepare_gpu, h0, h1, h2, hg]

/-- C3 witness: the all-reservations-lost environment exercises the amended
theorem at a concrete input. -/
theorem retry_loop_returns_last_selection_witness :
    (select_and_prepare_gpu race_env).select_calls = 3 ∧
    (select_and_prepare_gpu race_env).backoff_sleeps = 3 ∧
    generate_route race_env = RequestOutcome.dispatched proxy_gpu1.gpu_id :=
  ⟨(retry_loop_returns_last_selection race_env (fun _ => rfl)).2.2.1,
   (retry_loop_returns_last_selection race_env (fun _ => rfl)).2.2.2.1,
   (retry_loop_returns_last_selection race_env (fun _ => rfl)).2.2.2.2 proxy_gpu1 rfl⟩

/-- C4 counterexample: an unreserved worker in the `ERROR` state — neither
Paused/Starting nor an active state with a free slot — is reserved
successfully by `reserve_gpu`. -/
theorem reserve_succeeds_on_error_worker :
    (reserve_gpu_core 100 gpu3_error "bob" 10 (some "llama3")).2 = true ∧
    gpu3_error.status = GPUModelStatus.error ∧
    gpu3_error.reservation = none :=
  ⟨rfl, rfl, rfl⟩

/-- C4 amended: `reserve_gpu` succeeds iff the worker's `reservation` field is
`None` (an expired reservation still blocks: it is not lazily cleared before
the check) and the status is not `BUSY`; every other status — Paused,
Starting, Pausing, LoadingModel, Error, Idle, ModelReady — accepts the
reservation, and on success `expires_at = now + ttl` (minutes). -/
theorem reserve_gpu_core_spec (now : Nat) (g : GPUInfo) (u : String)
    (ttl : Nat) (m : Option String) :
    ((reserve_gpu_core now g u ttl m).2 = true
      ↔ (g.reservation = none ∧ g.status ≠ GPUModelStatus.busy)) ∧
    ((reserve_gpu_core now g u ttl m).2 = true →
      (reserve_gpu_core now g u ttl m).1.reservation
        = some {
            user_id := u,
            reserved_at := now,
            expires_at := now + ttl * 60,
            model_name := m }) := by
  rcases hr : g.reservation with _ | r
  · cases hs : g.status <;>
      simp [reserve_gpu_core, GPUInfo.is_available_eff, GPUInfo.set_reservation, hr, hs]
  · simp [reserve_gpu_core, hr]

/-- C4 witness: reserving the idle, unreserved gpu1 succeeds and writes the
reservation record with `expires_at = 0 + 10 * 60`. -/
theorem reserve_gpu_core_spec_witness :
    (reserve_gpu_core 0 gpu1_idle "user1" 10 (some "llama3")).2 = true ∧
    (reserve_gpu_core 0 gpu1_idle "user1" 10 (some "llama3")).1.reservation
      = some {
          user_id := "user1",
          reserved_at := 0,
          expires_at := 600,
          model_name := some "llama3" } := by
  have h := reserve_gpu_core_spec 0 gpu1_idle "user1" 10 (some "llama3")
  have hb : (reserve_gpu_core 0 gpu1_idle "user1" 10 (some "llama3")).2 = true :=
    h.1.mpr ⟨rfl, by decide⟩
  exact ⟨hb, h.2 hb⟩

/-- C5 counterexample: `finish_request` on a Busy worker with no loaded model
transitions it to Idle but does NOT set `idle_since` to the current time —
`update_status(IDLE)` leaves `idle_since` untouched. -/
theorem finish_request_skips_idle_since :
    (gpu4_busy.finish_request 7).status = GPUModelStatus.idle ∧
    (gpu4_busy.finish_request 7).idle_since = none :=
  ⟨rfl, rfl⟩

/-- C5 amended: `finish_request` transitions to ModelReady when a model is
loaded (stamping `idle_since = now` unless the status already was ModelReady)
and to Idle otherwise (leaving `idle_since` untouched), and clears the
reservation; `GPUInfo` has no `active_requests` counter, so nothing is
decremented. -/
theorem finish_request_spec (now : Nat) (g : GPUInfo) :
    (g.finish_request now).status
      = (if g.loaded_model.isSome then GPUModelStatus.model_ready
         else GPUModelStatus.idle) ∧
    (g.finish_request now).reservation = none ∧
    (g.finish_request now).idle_since
      = (if g.loaded_model.isSome && !(g.status == GPUModelStatus.model_ready)
         then some now else g.idle_since) := by
  rcases hm : g.loaded_model with _ | m
  · by_cases hs : GPUModelStatus.idle = g.status
    · simp [GPUInfo.finish_request, GPUInfo.update_status, GPUInfo.clear_reservation,
        hm, ← hs]
    · have hs' : ¬ g.status = GPUModelStatus.idle := fun hgs => hs hgs.symm
      simp [GPUInfo.finish_request, GPUInfo.update_status, GPUInfo.clear_reservation,
        hm, hs, hs']
  · by_cases hs : GPUModelStatus.model_ready = g.status
    · simp [GPUInfo.finish_request, GPUInfo.update_status, GPUInfo.clear_reservation,
        hm, ← hs]
    · have hs' : ¬ g.status = GPUModelStatus.model_ready := fun hgs => hs hgs.symm
      simp [GPUInfo.finish_request, GPUInfo.update_status, GPUInfo.clear_reservation,
        hm, hs, hs']

/-- C6: `pause_gpu` on a known worker id — here the idle, request-free gpu1,
which the claim says should be paused with `True` returned — always raises
`AttributeError`, because its guard `if gpu.active_requests > 0:` reads an
attribute `GPUInfo` does not declare.  The cloud pause is never reached. -/
theorem pause_gpu_always_raises (now : Nat) (cloud : CloudEnv) :
    pause_gpu now cloud solo_registry "gpu1" = Except.error PyErr.attributeError :=
  rfl

/-- C7: on the fixture of `test_select_gpu_with_model` — a single available
`MODEL_READY` worker with llama3 resident — `select_gpu` does not produce the
affinity decision the claim describes; it raises `AttributeError`, because
`_find_gpu_with_model` sorts its candidates by the nonexistent
`active_requests` attribute. -/
theorem select_gpu_model_hit_raises (now startup_timeout_seconds : Nat) :
    select_gpu now startup_timeout_seconds [gpu1_ready] "llama3"
      = Except.error PyErr.attributeError :=
  rfl

/-- C8 counterexample: the ANY-method `/api/` passthrough is a registered
endpoint other than `GET /health` that carries no auth dependency at all. -/
theorem passthrough_requires_no_auth :
    passthrough_route ∈ app_routes ∧
    passthrough_route.requires_auth = false ∧
    passthrough_route.path ≠ "/health" := by
  refine ⟨by decide, rfl, by decide⟩

/-- C8 amended: every registered endpoint except `GET /health` AND except the
ANY-method `/api/` passthrough requires bearer auth, and
`get_current_user` rejects a missing or invalid api key with HTTP 401
carrying `WWW-Authenticate: Bearer`. -/
theorem auth_on_all_but_health_and_passthrough :
    (∀ r ∈ app_routes, r.path ≠ "/health" → r.path ≠ "/api/\x7bpath:path\x7d" →
      r.requires_auth = true) ∧
    (∀ validate_api_key : String → Option String,
      get_current_user validate_api_key none
        = Except.error { status_code := 401, www_authenticate_header := "Bearer" }) ∧
    (∀ (validate_api_key : String → Option String) (key : String),
      validate_api_key key = none →
      get_current_user validate_api_key (some key)
        = Except.error { status_code := 401, www_authenticate_header := "Bearer" }) := by
  refine ⟨by decide, fun v => rfl, fun v k hk => ?_⟩
  simp [get_current_user, hk]

/-- C8 witness: the `/gpu/stats` route requires auth, and a missing or
unknown key is rejected 401 Bearer. -/
theorem auth_on_all_but_health_and_passthrough_witness :
    (Route.mk [HttpMethod.get] "/gpu/stats" true).requires_auth = true ∧
    get_current_user (fun _ => none) none
      = Except.error { status_code := 401, www_authenticate_header := "Bearer" } ∧
    get_current_user (fun _ => none) (some "bad-key")
      = Except.error { status_code := 401, www_authenticate_header := "Bearer" } := by
  refine ⟨?_, ?_, ?_⟩
  · exact auth_on_all_but_health_and_passthrough.1
      (Route.mk [HttpMethod.get] "/gpu/stats" true) (by decide) (by decide) (by decide)
  · exact auth_on_all_but_health_and_passthrough.2.1 (fun _ => none)
  · exact auth_on_all_but_health_and_passthrough.2.2 (fun _ => none) "bad-key" rfl

/-- C9: the OpenAI→Ollama conversion preserves `model`, the ordered
(role, content) pairs of the messages, and `stream`; it maps `temperature`
and `top_p` into `options` and `max_tokens` to `options.num_ctx`, each key
absent from `options` exactly when the input field is absent. -/
theorem convert_openai_to_ollama_chat_preserves (r : OpenAIChatRequest) :
    (convert_openai_to_ollama_chat r).model = r.model ∧
    (convert_openai_to_ollama_chat r).messages.map (fun m => (m.role, m.content))
      = r.messages.map (fun m => (m.role, m.content)) ∧
    (convert_openai_to_ollama_chat r).stream = r.stream ∧
    options_get (convert_openai_to_ollama_chat r).options "temperature"
      = r.temperature.map OptionValue.float_val ∧
    options_get (convert_openai_to_ollama_chat r).options "top_p"
      = r.top_p.map OptionValue.float_val ∧
    options_get (convert_openai_to_ollama_chat r).options "num_ctx"
      = r.max_tokens.map OptionValue.int_val := by
  rcases r with ⟨model, messages, temperature, top_p, n, stream, stop, max_tokens, pp, fp, u⟩
  rcases temperature with _ | t <;> rcases top_p with _ | p <;> rcases max_tokens with _ | k <;>
    exact ⟨rfl, map_role_content messages, rfl, rfl, rfl, rfl⟩

/-- C10: for a worker id absent from the registry, `reserve_gpu` raises
`KeyError` (its `self.gpus[gpu_id]` lookup is unguarded) while `start_gpu`
and `pause_gpu` return `False` for the same id — reservation is not total
over arbitrary worker ids. -/
theorem unknown_gpu_id_asymmetry (now : Nat) (cloud : CloudEnv) (reg : Registry)
    (gpu_id user_id : String) (ttl : Nat) (m : Option String)
    (h : lookupGpu reg gpu_id = none) :
    reserve_gpu now ttl reg gpu_id user_id m = Except.error PyErr.keyError ∧
    start_gpu now cloud reg gpu_id = (reg, false) ∧
    pause_gpu now cloud reg gpu_id = Except.ok (reg, false) := by
  refine ⟨?_, ?_, ?_⟩ <;> simp [reserve_gpu, start_gpu, pause_gpu, h]

/-- C10 witness: the empty registry and the id "ghost". -/
theorem unknown_gpu_id_asymmetry_witness :
    reserve_gpu 0 10 [] "ghost" "user1" none = Except.error PyErr.keyError ∧
    start_gpu 0 { } [] "ghost" = ([], false) ∧
    pause_gpu 0 { } [] "ghost" = Except.ok ([], false) :=
  unknown_gpu_id_asymmetry 0 { } [] "ghost" "user1" 10 none rfl
